import Mathlib

set_option maxRecDepth 10000
set_option maxHeartbeats 1000000

/-!
Verification of the ADXL345 accelerometer driver (adxl345.c / adxl345.h).

The driver is embedded shallowly: the I2C transport is modelled as an oracle
(`Bus`) deciding, per transaction, whether the HAL call returns `HAL_OK`; the
sensor's register file, the driver's file-static shadow variables, the
diagnostic `printf` output and the sequence of attempted register writes are
threaded through an explicit state (`Sys`).  Each C function becomes a state
transformer; `uint8_t` truncation is modelled by `byte` (reduction mod 256).
-/

namespace ADXL345

/-! ## Register addresses (adxl345.h, section 2) -/

def DEVID : Nat := 0x00
def THRESH_TAP : Nat := 0x1D
def DUR : Nat := 0x21
def LATENT : Nat := 0x22
def WINDOW : Nat := 0x23
def THRESH_ACT : Nat := 0x24
def THRESH_INACT : Nat := 0x25
def TIME_INACT : Nat := 0x26
def ACT_INACT_CTL : Nat := 0x27
def THRESH_FF : Nat := 0x28
def TIME_FF : Nat := 0x29
def TAP_AXES : Nat := 0x2A
def ACT_TAP_STATUS : Nat := 0x2B
def BW_RATE : Nat := 0x2C
def POWER_CTL : Nat := 0x2D
def INT_ENABLE : Nat := 0x2E
def INT_MAP : Nat := 0x2F
def INT_SOURCE : Nat := 0x30
def DATA_FORMAT : Nat := 0x31
def DATAX0 : Nat := 0x32
def FIFO_CTL : Nat := 0x38

/-! ## Register setting values (adxl345.h, section 3) -/

def LP_NORMAL : Nat := 0
def LP_LOWPOWER : Nat := 16
def BWRATE_100 : Nat := 11
def LINKMODE_ON : Nat := 32
def LINKMODE_OFF : Nat := 0
def AUTOSLEEPMODE_ON : Nat := 16
def AUTOSLEEPMODE_OFF : Nat := 0
def MEASURE_ON : Nat := 8
def MEASURE_OFF : Nat := 0
def SLEEPMODE_OFF : Nat := 0

def DATA_READY_ON : Nat := 128
def DATA_READY_OFF : Nat := 0
def SINGLE_TAP_ON : Nat := 64
def SINGLE_TAP_OFF : Nat := 0
def DOUBLE_TAP_ON : Nat := 32
def DOUBLE_TAP_OFF : Nat := 0
def ACTIVITY_ON : Nat := 16
def ACTIVITY_OFF : Nat := 0
def INACTIVITY_ON : Nat := 8
def INACTIVITY_OFF : Nat := 0
def FREE_FALL_ON : Nat := 4
def FREE_FALL_OFF : Nat := 0
def WATERMARK_ON : Nat := 2
def WATERMARK_OFF : Nat := 0
def OVERRUN_ON : Nat := 1
def OVERRUN_OFF : Nat := 0

def DATA_READY_INT : Nat := 128
def SINGLE_TAP_INT : Nat := 64
def DOUBLE_TAP_INT : Nat := 32
def ACTIVITY_INT : Nat := 16
def INACTIVITY_INT : Nat := 8
def FREE_FALL_INT : Nat := 4
def WATERMARK_INT : Nat := 2
def OVERRUN_INT : Nat := 1

def FULL_RESOLUTION : Nat := 8
def MODE_10BIT : Nat := 0
def RANGE_2G : Nat := 0
def RANGE_4G : Nat := 1
def RANGE_8G : Nat := 2
def RANGE_16G : Nat := 3

def FIFO_BYPASS : Nat := 0
def FIFO_FIFO : Nat := 64
def FIFO_STREAM : Nat := 128
def FIFO_TRIGGER : Nat := 192

/-- `uint8_t` truncation. -/
def byte (n : Nat) : Nat := n % 256

/-! ## Configuration structures (adxl345.h, section 1) -/

/-- `ADXL_InitType`: every field is a `uint8_t` bit-field value. -/
structure ADXL_InitType where
  LP_MODE : Nat
  BWRATE : Nat
  LINK_MODE : Nat
  AUTOSLEEP_MODE : Nat
  MEASURE_SET : Nat
  SLEEP_MODE : Nat
  FULL_RES : Nat
  RANGE : Nat
  FIFO_MODE : Nat
deriving DecidableEq

/-- `ADXL_INTType`: eight interrupt flags, each a `uint8_t` bit value. -/
structure ADXL_INTType where
  DATA_READY : Nat
  SINGLE_TAP : Nat
  DOUBLE_TAP : Nat
  ACTIVITY : Nat
  INACTIVITY : Nat
  FREE_FALL : Nat
  WATERMARK : Nat
  OVERRUN : Nat
deriving DecidableEq

/-! ## Driver state, transport oracle and observable effects -/

/-- The file-static shadow variables of adxl345.c. -/
structure DriverState where
  power_ctl : Nat
  data_format : Nat
  fifo_ctl : Nat
  bw_rate : Nat
  int_enable : Nat
deriving DecidableEq

/-- One attempted register write: address, value sent, HAL result. -/
structure Write where
  reg : Nat
  val : Nat
  ok : Bool
deriving DecidableEq

/-- The eight motion events the interrupt-source decode can report. -/
inductive MotionEvent where
  | dataReady | singleTap | doubleTap | activity | inactivity | freeFall | watermark | overrun
deriving DecidableEq

/-- The driver's `printf` diagnostics, tagged by kind. -/
inductive Msg where
  | writeOk (reg : Nat)
  | writeErr (reg : Nat)
  | readOk (reg : Nat)
  | readErr (reg : Nat)
  | invalidPin
  | intMsg (e : MotionEvent)
deriving DecidableEq

/-- Transport oracle: whether the n-th I2C transaction returns `HAL_OK`. -/
structure Bus where
  ok : Nat → Bool

/-- Full machine state: shadow variables, sensor register file, transaction
counter, attempted-write trace, console output, and the remaining
file-static buffers of adxl345.c. -/
structure Sys where
  drv : DriverState
  hw : Nat → Nat
  n : Nat
  log : List Write
  console : List Msg
  axis_data : Fin 6 → Nat
  test : Nat
  int_source : Nat
  act_tap_status : Nat

/-! ## Register handling functions (adxl345.c) -/

/-- `writeRegister`: sends (address, value) over I2C; on success the device
register takes the value; either way an error/success line is printed and
the driver continues (the C function returns `void`). -/
def writeRegister (bus : Bus) (reg_address value : Nat) (s : Sys) : Sys :=
  let succ := bus.ok s.n
  { s with
    hw := if succ then Function.update s.hw reg_address (byte value) else s.hw
    n := s.n + 1
    log := s.log ++ [⟨reg_address, byte value, succ⟩]
    console := s.console ++ [if succ then Msg.writeOk reg_address else Msg.writeErr reg_address] }

/-- `readRegister` (1-byte case, as used by the driver): on success returns
the device register; on failure the output buffer keeps its previous
content `old` (the C function writes nothing into it). -/
def readRegister (bus : Bus) (reg_address old : Nat) (s : Sys) : Sys × Nat :=
  let succ := bus.ok s.n
  let v := if succ then byte (s.hw reg_address) else old
  ({ s with
     n := s.n + 1
     console := s.console ++ [if succ then Msg.readOk reg_address else Msg.readErr reg_address] },
   v)

/-- `readValue`: 6-byte burst read into the static `axis_data` buffer;
prints only on failure. -/
def readValue (bus : Bus) (reg_address : Nat) (s : Sys) : Sys :=
  let succ := bus.ok s.n
  { s with
    n := s.n + 1
    axis_data := if succ then fun i => byte (s.hw (reg_address + i.val)) else s.axis_data
    console := if succ then s.console else s.console ++ [Msg.readErr reg_address] }

/-- `resetRegisters`: writes 0x00 to the four mutable control registers. -/
def resetRegisters (bus : Bus) (s : Sys) : Sys :=
  writeRegister bus FIFO_CTL 0x00
    (writeRegister bus DATA_FORMAT 0x00
      (writeRegister bus POWER_CTL 0x00
        (writeRegister bus BW_RATE 0x00 s)))

/-- `configureAutosleep`: the four autosleep sub-register writes. -/
def configureAutosleep (bus : Bus) (s : Sys) : Sys :=
  writeRegister bus ACT_INACT_CTL 0xFF
    (writeRegister bus TIME_INACT 0x05
      (writeRegister bus THRESH_INACT 0x04
        (writeRegister bus THRESH_ACT 0x10 s)))

/-- `adxlInit`: `NULL` config returns silently; otherwise reset, then set
each shadow variable and write it, with the autosleep sub-registers written
between the BW_RATE and POWER_CTL writes when autosleep is requested. -/
def adxlInit (bus : Bus) (initConfig : Option ADXL_InitType) (s : Sys) : Sys :=
  match initConfig with
  | none => s
  | some c =>
    let s1 := resetRegisters bus s
    let s2 := { s1 with drv := { s1.drv with bw_rate := byte (c.LP_MODE ||| c.BWRATE) } }
    let s3 := writeRegister bus BW_RATE s2.drv.bw_rate s2
    let s4 := { s3 with drv := { s3.drv with
                  power_ctl := byte (c.LINK_MODE ||| c.AUTOSLEEP_MODE ||| c.MEASURE_SET) } }
    let s5 := if c.AUTOSLEEP_MODE = AUTOSLEEPMODE_ON then configureAutosleep bus s4 else s4
    let s6 := writeRegister bus POWER_CTL s5.drv.power_ctl s5
    let s7 := { s6 with drv := { s6.drv with data_format := byte (c.FULL_RES ||| c.RANGE) } }
    let s8 := writeRegister bus DATA_FORMAT s7.drv.data_format s7
    let s9 := { s8 with drv := { s8.drv with fifo_ctl := byte c.FIFO_MODE } }
    writeRegister bus FIFO_CTL s9.drv.fifo_ctl s9

/-- `adxlTest`: reads the device-ID register into the file-static `test`
variable.  No comparison is performed and nothing is returned. -/
def adxlTest (bus : Bus) (s : Sys) : Sys :=
  let r := readRegister bus DEVID s.test s
  { r.1 with test := r.2 }

/-- `INT_Enable`: ORs the eight flags into the `int_enable` shadow and
writes it. -/
def INT_Enable (bus : Bus) (c : ADXL_INTType) (s : Sys) : Sys :=
  let s1 := { s with drv := { s.drv with
    int_enable := byte (c.DATA_READY ||| c.SINGLE_TAP ||| c.DOUBLE_TAP ||| c.ACTIVITY |||
                        c.INACTIVITY ||| c.FREE_FALL ||| c.WATERMARK ||| c.OVERRUN) } }
  writeRegister bus INT_ENABLE s1.drv.int_enable s1

/-- `INT_Map`: reads the map register into a local (`junk` stands for the
uninitialised local's content should the read fail), clears the mask bits
for pin 1, sets them for pin 2, and writes the byte back; any other pin
prints an error line and returns without writing. -/
def INT_Map (bus : Bus) (interrupt_mask pin junk : Nat) (s : Sys) : Sys :=
  let r := readRegister bus INT_MAP junk s
  let s1 := r.1
  let int_map := r.2
  if pin = 1 then
    writeRegister bus INT_MAP (int_map &&& (255 ^^^ byte interrupt_mask)) s1
  else if pin = 2 then
    writeRegister bus INT_MAP (int_map ||| byte interrupt_mask) s1
  else
    { s1 with console := s1.console ++ [Msg.invalidPin] }

/-- The pure decode at the heart of `INT_Source`: the events whose bit is
set in the byte read, in the order the C code tests them. -/
def intSourceEvents (b : Nat) : List MotionEvent :=
  (if b &&& DATA_READY_INT ≠ 0 then [MotionEvent.dataReady] else []) ++
  (if b &&& SINGLE_TAP_INT ≠ 0 then [MotionEvent.singleTap] else []) ++
  (if b &&& DOUBLE_TAP_INT ≠ 0 then [MotionEvent.doubleTap] else []) ++
  (if b &&& ACTIVITY_INT ≠ 0 then [MotionEvent.activity] else []) ++
  (if b &&& INACTIVITY_INT ≠ 0 then [MotionEvent.inactivity] else []) ++
  (if b &&& FREE_FALL_INT ≠ 0 then [MotionEvent.freeFall] else []) ++
  (if b &&& WATERMARK_INT ≠ 0 then [MotionEvent.watermark] else []) ++
  (if b &&& OVERRUN_INT ≠ 0 then [MotionEvent.overrun] else [])

/-- `INT_Source`: reads the interrupt-source register into the static
`int_source` and prints one line per detected event. -/
def INT_Source (bus : Bus) (s : Sys) : Sys :=
  let r := readRegister bus INT_SOURCE s.int_source s
  let s1 := { r.1 with int_source := r.2 }
  { s1 with console := s1.console ++ (intSourceEvents s1.int_source).map Msg.intMsg }

/-- `configureTapAndFreefall`: tap registers when single or double tap is
requested, latency/window additionally for double tap, free-fall registers
when free-fall is requested. -/
def configureTapAndFreefall (bus : Bus) (c : ADXL_INTType) (s : Sys) : Sys :=
  let s1 :=
    if c.SINGLE_TAP = SINGLE_TAP_ON ∨ c.DOUBLE_TAP = DOUBLE_TAP_ON then
      let t1 := writeRegister bus THRESH_TAP 0x30 s
      let t2 := writeRegister bus DUR 0x20 t1
      let t3 := writeRegister bus TAP_AXES 0x07 t2
      if c.DOUBLE_TAP = DOUBLE_TAP_ON then
        writeRegister bus WINDOW 0x50 (writeRegister bus LATENT 0x05 t3)
      else t3
    else s
  if c.FREE_FALL = FREE_FALL_ON then
    writeRegister bus ACT_INACT_CTL 0x77
      (writeRegister bus TIME_FF 0x08
        (writeRegister bus THRESH_FF 0x07 s1))
  else s1

/-! ## Axis data decode (adxl345.c, read_X / read_Y / read_Z) -/

/-- The C cast of an `int` in [0, 65535] to `int16_t` (two's complement). -/
def toInt16 (n : Nat) : Int :=
  if n % 65536 < 32768 then ((n % 65536 : Nat) : Int) else ((n % 65536 : Nat) : Int) - 65536

/-- The driver's axis decode `(high << 8) | low`, reinterpreted signed. -/
def axisDecode (lo hi : Nat) : Int := toInt16 ((hi <<< 8) ||| lo)

/-- `read_X`: 6-byte burst read, then decode bytes 0 (low) and 1 (high). -/
def read_X (bus : Bus) (s : Sys) : Sys × Int :=
  let s1 := readValue bus DATAX0 s
  (s1, axisDecode (s1.axis_data 0) (s1.axis_data 1))

/-- `read_Y`: 6-byte burst read, then decode bytes 2 (low) and 3 (high). -/
def read_Y (bus : Bus) (s : Sys) : Sys × Int :=
  let s1 := readValue bus DATAX0 s
  (s1, axisDecode (s1.axis_data 2) (s1.axis_data 3))

/-- `read_Z`: 6-byte burst read, then decode bytes 4 (low) and 5 (high). -/
def read_Z (bus : Bus) (s : Sys) : Sys × Int :=
  let s1 := readValue bus DATAX0 s
  (s1, axisDecode (s1.axis_data 4) (s1.axis_data 5))

/-- Little-endian two's-complement encoding of a signed 16-bit value. -/
def encodeLE (v : Int) : Nat × Nat :=
  let u := (v % 65536).toNat
  (u % 256, u / 256)

/-! ## Statement-level vocabulary -/

/-- Validity of an `InitConfig`: every field holds one of the bit-field
values adxl345.h defines for its register (rate codes are the 4-bit values
0-15, range codes the 2-bit values 0-3). -/
abbrev ValidInit (c : ADXL_InitType) : Prop :=
  (c.LP_MODE = LP_NORMAL ∨ c.LP_MODE = LP_LOWPOWER) ∧
  c.BWRATE < 16 ∧
  (c.LINK_MODE = LINKMODE_OFF ∨ c.LINK_MODE = LINKMODE_ON) ∧
  (c.AUTOSLEEP_MODE = AUTOSLEEPMODE_OFF ∨ c.AUTOSLEEP_MODE = AUTOSLEEPMODE_ON) ∧
  (c.MEASURE_SET = MEASURE_OFF ∨ c.MEASURE_SET = MEASURE_ON) ∧
  (c.FULL_RES = MODE_10BIT ∨ c.FULL_RES = FULL_RESOLUTION) ∧
  c.RANGE < 4 ∧
  (c.FIFO_MODE = FIFO_BYPASS ∨ c.FIFO_MODE = FIFO_FIFO ∨
   c.FIFO_MODE = FIFO_STREAM ∨ c.FIFO_MODE = FIFO_TRIGGER)

/-- An `InterruptConfig` requesting only double tap. -/
abbrev OnlyDoubleTap (c : ADXL_INTType) : Prop :=
  c.DATA_READY = DATA_READY_OFF ∧ c.SINGLE_TAP = SINGLE_TAP_OFF ∧
  c.DOUBLE_TAP = DOUBLE_TAP_ON ∧ c.ACTIVITY = ACTIVITY_OFF ∧
  c.INACTIVITY = INACTIVITY_OFF ∧ c.FREE_FALL = FREE_FALL_OFF ∧
  c.WATERMARK = WATERMARK_OFF ∧ c.OVERRUN = OVERRUN_OFF

/-- An `InterruptConfig` requesting only single tap. -/
abbrev OnlySingleTap (c : ADXL_INTType) : Prop :=
  c.DATA_READY = DATA_READY_OFF ∧ c.SINGLE_TAP = SINGLE_TAP_ON ∧
  c.DOUBLE_TAP = DOUBLE_TAP_OFF ∧ c.ACTIVITY = ACTIVITY_OFF ∧
  c.INACTIVITY = INACTIVITY_OFF ∧ c.FREE_FALL = FREE_FALL_OFF ∧
  c.WATERMARK = WATERMARK_OFF ∧ c.OVERRUN = OVERRUN_OFF

/-- The autosleep sub-registers all written at positions strictly before an
autosleep-activating POWER_CTL write, in the (address, value) trace `l`. -/
abbrev AutosleepOrdered (l : List (Nat × Nat)) (c : ADXL_InitType) : Prop :=
  ∃ j, l.get? j = some (POWER_CTL, c.LINK_MODE ||| c.AUTOSLEEP_MODE ||| c.MEASURE_SET) ∧
    (c.LINK_MODE ||| c.AUTOSLEEP_MODE ||| c.MEASURE_SET) &&& AUTOSLEEPMODE_ON ≠ 0 ∧
    (∃ i1, i1 < j ∧ l.get? i1 = some (THRESH_ACT, 0x10)) ∧
    (∃ i2, i2 < j ∧ l.get? i2 = some (THRESH_INACT, 0x04)) ∧
    (∃ i3, i3 < j ∧ l.get? i3 = some (TIME_INACT, 0x05)) ∧
    (∃ i4, i4 < j ∧ l.get? i4 = some (ACT_INACT_CTL, 0xFF))

/-- None of the four autosleep sub-registers occurs in the address trace. -/
abbrev NoAutosleepWrites (regs : List Nat) : Prop :=
  THRESH_ACT ∉ regs ∧ THRESH_INACT ∉ regs ∧ TIME_INACT ∉ regs ∧ ACT_INACT_CTL ∉ regs

/-- The three tap registers every tap configuration writes. -/
abbrev TapRegsWritten (regs : List Nat) : Prop :=
  THRESH_TAP ∈ regs ∧ DUR ∈ regs ∧ TAP_AXES ∈ regs

/-- The full list of motion events, in bit order 7..0. -/
abbrev allEvents : List MotionEvent :=
  [MotionEvent.dataReady, MotionEvent.singleTap, MotionEvent.doubleTap,
   MotionEvent.activity, MotionEvent.inactivity, MotionEvent.freeFall,
   MotionEvent.watermark, MotionEvent.overrun]

/-- The interrupt bit assigned to each motion event. -/
abbrev eventMask : MotionEvent → Nat
  | MotionEvent.dataReady => DATA_READY_INT
  | MotionEvent.singleTap => SINGLE_TAP_INT
  | MotionEvent.doubleTap => DOUBLE_TAP_INT
  | MotionEvent.activity => ACTIVITY_INT
  | MotionEvent.inactivity => INACTIVITY_INT
  | MotionEvent.freeFall => FREE_FALL_INT
  | MotionEvent.watermark => WATERMARK_INT
  | MotionEvent.overrun => OVERRUN_INT

/-! ## Concrete instances used by counterexamples and witnesses -/

/-- A transport on which every transaction succeeds. -/
def bus0 : Bus := ⟨fun _ => true⟩

/-- A transport failing exactly the fifth transaction: during `adxlInit`
from a fresh state that is the BW_RATE (rate-register) data write. -/
def busFailRate : Bus := ⟨fun n => n != 4⟩

/-- Fresh state: all statics zero-initialised, device registers zero. -/
def sys0 : Sys :=
  { drv := ⟨0, 0, 0, 0, 0⟩
    hw := fun _ => 0
    n := 0
    log := []
    console := []
    axis_data := fun _ => 0
    test := 0
    int_source := 0
    act_tap_status := 0 }

/-- Fresh state whose device-ID register holds `b`. -/
def sysDev (b : Nat) : Sys := { sys0 with hw := Function.update sys0.hw DEVID b }

/-- The usage example's configuration (adxl345.c header comment). -/
def cfg0 : ADXL_InitType :=
  ⟨LP_NORMAL, BWRATE_100, LINKMODE_OFF, AUTOSLEEPMODE_OFF, MEASURE_ON,
   SLEEPMODE_OFF, FULL_RESOLUTION, RANGE_4G, FIFO_STREAM⟩

/-- The same configuration with autosleep switched on. -/
def cfgAuto : ADXL_InitType :=
  ⟨LP_NORMAL, BWRATE_100, LINKMODE_OFF, AUTOSLEEPMODE_ON, MEASURE_ON,
   SLEEPMODE_OFF, FULL_RESOLUTION, RANGE_4G, FIFO_STREAM⟩

/-- All interrupt flags off. -/
def icOff : ADXL_INTType := ⟨0, 0, 0, 0, 0, 0, 0, 0⟩

/-- Only single tap requested. -/
def icSingle : ADXL_INTType :=
  ⟨DATA_READY_OFF, SINGLE_TAP_ON, DOUBLE_TAP_OFF, ACTIVITY_OFF,
   INACTIVITY_OFF, FREE_FALL_OFF, WATERMARK_OFF, OVERRUN_OFF⟩

/-- Only double tap requested. -/
def icDouble : ADXL_INTType :=
  ⟨DATA_READY_OFF, SINGLE_TAP_OFF, DOUBLE_TAP_ON, ACTIVITY_OFF,
   INACTIVITY_OFF, FREE_FALL_OFF, WATERMARK_OFF, OVERRUN_OFF⟩

/-- Double-tap configuration writes latency and window on top of the three
tap registers. -/
abbrev TapTraceDouble (regs : List Nat) : Prop :=
  LATENT ∈ regs ∧ WINDOW ∈ regs ∧ TapRegsWritten regs

/-- Single-tap-only configuration writes the three tap registers but
neither latency nor window. -/
abbrev TapTraceSingle (regs : List Nat) : Prop :=
  LATENT ∉ regs ∧ WINDOW ∉ regs ∧ TapRegsWritten regs

/-- The observable behaviour of `INT_Map` on a fresh trace: pin 1 writes
back the read byte with the mask bits cleared, pin 2 with them set, any
other pin writes nothing and only prints an error line. -/
abbrev INT_MapBehaviour (bus : Bus) (mask pin junk : Nat) (s : Sys) : Prop :=
  (pin = 1 →
    ((INT_Map bus mask pin junk s).log.map fun w => (w.reg, w.val)) =
      [(INT_MAP, s.hw INT_MAP &&& (255 ^^^ mask))] ∧
    ∀ i, i < 8 → (s.hw INT_MAP &&& (255 ^^^ mask)).testBit i =
      ((s.hw INT_MAP).testBit i && !(mask.testBit i))) ∧
  (pin = 2 →
    ((INT_Map bus mask pin junk s).log.map fun w => (w.reg, w.val)) =
      [(INT_MAP, s.hw INT_MAP ||| mask)] ∧
    ∀ i, i < 8 → (s.hw INT_MAP ||| mask).testBit i =
      ((s.hw INT_MAP).testBit i || mask.testBit i)) ∧
  (pin ≠ 1 → pin ≠ 2 →
    (INT_Map bus mask pin junk s).log = [] ∧
    (INT_Map bus mask pin junk s).console = s.console ++ [Msg.readOk INT_MAP, Msg.invalidPin])

/-! ## Helper lemmas -/

theorem byte_eq_of_lt {a : Nat} (h : a < 256) : byte a = a := Nat.mod_eq_of_lt h

theorem and224_eq_zero : ∀ v, v < 32 → v &&& 224 = 0 := by decide

theorem shl8_or_add (a b : Nat) (hb : b < 256) : (a <<< 8) ||| b = 256 * a + b := by
  apply Nat.eq_of_testBit_eq
  intro i
  rw [Nat.testBit_lor, Nat.testBit_shiftLeft,
      show 256 * a + b = 2 ^ 8 * a + b by ring,
      Nat.testBit_mul_pow_two_add a (show b < 2 ^ 8 from hb) i]
  rcases Nat.lt_or_ge i 8 with h | h
  · have hd : ¬ (i ≥ 8) := by omega
    simp [h, hd]
  · have h2 : (256 : Nat) ≤ 2 ^ i := by
      calc (256 : Nat) = 2 ^ 8 := rfl
        _ ≤ 2 ^ i := Nat.pow_le_pow_right (by norm_num) h
    have hb' : b.testBit i = false := Nat.testBit_lt_two_pow (lt_of_lt_of_le hb h2)
    simp [h, Nat.not_lt.mpr h, hb']

/-- The rate byte composed from a valid low-power flag and rate code fits a
byte, has no bits above bit 4, and survives `uint8_t` truncation. -/
theorem bw_byte (lp bw : Nat) (hlp : lp = LP_NORMAL ∨ lp = LP_LOWPOWER) (hbw : bw < 16) :
    byte (lp ||| bw) = lp ||| bw ∧ (lp ||| bw) &&& 224 = 0 ∧ lp ||| bw < 256 := by
  have hlt : lp ||| bw < 32 := by
    rcases hlp with rfl | rfl
    · rw [LP_NORMAL, Nat.zero_or]
      omega
    · have : (LP_LOWPOWER ||| bw) < 2 ^ 5 :=
        @Nat.or_lt_two_pow LP_LOWPOWER bw 5 (by norm_num [LP_LOWPOWER]) (by omega)
      simpa using this
  refine ⟨byte_eq_of_lt (by omega), and224_eq_zero _ hlt, by omega⟩

/-! ## C1: shadow-state versus write failures -/

/-- C1 (counterexample): with a transport failing exactly the rate-register
data write inside `adxlInit` (the fifth transaction from a fresh state),
the rate shadow is nevertheless updated to the composed rate byte, and the
data-format and FIFO-control shadows do not stay at their pre-call reset
values 0 — refuting the claim that a failed write leaves the corresponding
shadow untouched and the later shadows at their reset values. -/
theorem stale_shadow_cex :
    (adxlInit busFailRate (some cfg0) sys0).log.get? 4 =
      some ⟨BW_RATE, BWRATE_100, false⟩ ∧
    (adxlInit busFailRate (some cfg0) sys0).drv.bw_rate = BWRATE_100 ∧
    ¬ ((adxlInit busFailRate (some cfg0) sys0).drv.data_format = 0 ∧
       (adxlInit busFailRate (some cfg0) sys0).drv.fifo_ctl = 0) := by
  decide

/-- C1 (amended): the shadow variables are assigned unconditionally when
the byte is composed, before and independently of the transport's verdict:
after `adxlInit` (resp. `INT_Enable`) every shadow holds the composed byte
for any bus whatsoever, including one on which every write failed. -/
theorem shadows_independent_of_transport (bus : Bus) (c : ADXL_InitType)
    (ic : ADXL_INTType) (s : Sys) :
    (adxlInit bus (some c) s).drv.bw_rate = byte (c.LP_MODE ||| c.BWRATE) ∧
    (adxlInit bus (some c) s).drv.power_ctl =
      byte (c.LINK_MODE ||| c.AUTOSLEEP_MODE ||| c.MEASURE_SET) ∧
    (adxlInit bus (some c) s).drv.data_format = byte (c.FULL_RES ||| c.RANGE) ∧
    (adxlInit bus (some c) s).drv.fifo_ctl = byte c.FIFO_MODE ∧
    (adxlInit bus (some c) s).drv.int_enable = s.drv.int_enable ∧
    (INT_Enable bus ic s).drv.int_enable =
      byte (ic.DATA_READY ||| ic.SINGLE_TAP ||| ic.DOUBLE_TAP ||| ic.ACTIVITY |||
            ic.INACTIVITY ||| ic.FREE_FALL ||| ic.WATERMARK ||| ic.OVERRUN) := by
  by_cases hA : c.AUTOSLEEP_MODE = AUTOSLEEPMODE_ON <;>
    simp [adxlInit, resetRegisters, configureAutosleep, writeRegister, INT_Enable, hA]

/-! ## C2: null configuration handling -/

/-- C2 (counterexample): `adxlInit` on a null configuration is a complete
no-op at an explicit input — no write attempted, no console output, no
state change, and (the C function returning `void`) no error value — so it
does not reject the null configuration with a `ConfigurationError`. -/
theorem nullconfig_silent_noop_cex : adxlInit bus0 none sys0 = sys0 := rfl

/-- C2 (amended): on a null configuration `adxlInit` silently returns:
the whole machine state, including the write trace and console, is
unchanged, and no failure is signalled in any form. -/
theorem nullconfig_silent_noop (bus : Bus) (s : Sys) : adxlInit bus none s = s := rfl

/-! ## C9: identity check -/

/-- C9 (counterexample): `adxlTest` with the device-ID register holding
0x17 (not 0xE5) merely stores the raw byte in the static `test` variable;
its observable outcome (console, trace) is identical to the run whose
device-ID byte is the correct 0xE5 — no boolean comparison against 0xE5 is
produced and no `Ok(false)`/`Ok(true)` result exists. -/
theorem adxlTest_no_comparison_cex :
    (adxlTest bus0 (sysDev 0x17)).test = 0x17 ∧
    (adxlTest bus0 (sysDev 0x17)).console = [Msg.readOk DEVID] ∧
    (adxlTest bus0 (sysDev 0x17)).log = [] ∧
    (adxlTest bus0 (sysDev 0xE5)).console = [Msg.readOk DEVID] ∧
    (adxlTest bus0 (sysDev 0xE5)).test = 0xE5 := by
  decide

/-- C9 (amended): on a successful read `adxlTest` stores the device-ID
byte in the internal `test` variable and logs the generic read-success
line; it performs no comparison against 0xE5, issues no write and returns
nothing. -/
theorem adxlTest_reads_devid (bus : Bus) (s : Sys) (hok : bus.ok s.n = true) :
    (adxlTest bus s).test = byte (s.hw DEVID) ∧
    (adxlTest bus s).console = s.console ++ [Msg.readOk DEVID] ∧
    (adxlTest bus s).log = s.log := by
  simp [adxlTest, readRegister, hok]

/-- Witness for the amended C9 theorem at a concrete state. -/
theorem adxlTest_reads_devid_witness :
    bus0.ok (sysDev 0x17).n = true ∧
    ((adxlTest bus0 (sysDev 0x17)).test = byte ((sysDev 0x17).hw DEVID) ∧
     (adxlTest bus0 (sysDev 0x17)).console = (sysDev 0x17).console ++ [Msg.readOk DEVID] ∧
     (adxlTest bus0 (sysDev 0x17)).log = (sysDev 0x17).log) :=
  ⟨rfl, adxlTest_reads_devid bus0 (sysDev 0x17) rfl⟩

/-! ## C10: no-op when no tap or free-fall feature is requested -/

/-- C10: when neither tap flag nor free-fall is requested,
`configureTapAndFreefall` performs no register write and leaves the whole
machine state — shadows included — unchanged. -/
theorem configureTapAndFreefall_noop (bus : Bus) (ic : ADXL_INTType) (s : Sys)
    (h1 : ic.SINGLE_TAP ≠ SINGLE_TAP_ON) (h2 : ic.DOUBLE_TAP ≠ DOUBLE_TAP_ON)
    (h3 : ic.FREE_FALL ≠ FREE_FALL_ON) :
    configureTapAndFreefall bus ic s = s := by
  have hc1 : ¬ (ic.SINGLE_TAP = SINGLE_TAP_ON ∨ ic.DOUBLE_TAP = DOUBLE_TAP_ON) := by
    rintro (h | h)
    · exact h1 h
    · exact h2 h
  simp only [configureTapAndFreefall]
  rw [if_neg h3, if_neg hc1]

/-- Witness for C10 at the all-off interrupt configuration. -/
theorem configureTapAndFreefall_noop_witness :
    icOff.SINGLE_TAP ≠ SINGLE_TAP_ON ∧ icOff.DOUBLE_TAP ≠ DOUBLE_TAP_ON ∧
    icOff.FREE_FALL ≠ FREE_FALL_ON ∧ configureTapAndFreefall bus0 icOff sys0 = sys0 :=
  ⟨by decide, by decide, by decide,
   configureTapAndFreefall_noop bus0 icOff sys0 (by decide) (by decide) (by decide)⟩

/-! ## C3: axis decode is a round-trip -/

theorem encode_fst_lt (v : Int) : (encodeLE v).1 < 256 := by
  simp only [encodeLE]
  omega

theorem encode_snd_lt (v : Int) : (encodeLE v).2 < 256 := by
  have hnn : (0 : Int) ≤ v % 65536 := Int.emod_nonneg v (by norm_num)
  have hlt : v % 65536 < 65536 := Int.emod_lt_of_pos v (by norm_num)
  simp only [encodeLE]
  omega

/-- C3: for every signed 16-bit value, encoding it as little-endian
two's-complement bytes and decoding with the driver's
`(high << 8) | low` + `int16_t` reinterpretation gives the value back;
consequently `read_X` returns the value when the device's X data registers
hold those two bytes. -/
theorem axis_roundtrip (v : Int) (h1 : -32768 ≤ v) (h2 : v ≤ 32767) :
    axisDecode (encodeLE v).1 (encodeLE v).2 = v ∧
    ∀ (bus : Bus) (s : Sys), bus.ok s.n = true →
      s.hw DATAX0 = (encodeLE v).1 → s.hw (DATAX0 + 1) = (encodeLE v).2 →
      (read_X bus s).2 = v := by
  have hnn : (0 : Int) ≤ v % 65536 := Int.emod_nonneg v (by norm_num)
  have hlt : v % 65536 < 65536 := Int.emod_lt_of_pos v (by norm_num)
  have core : axisDecode (encodeLE v).1 (encodeLE v).2 = v := by
    simp only [encodeLE, axisDecode, toInt16]
    set u := (v % 65536).toNat with hu
    have hub : u < 65536 := by omega
    have key : ((u / 256) <<< 8) ||| (u % 256) = u := by
      rw [shl8_or_add (u / 256) (u % 256) (by omega)]
      omega
    rw [key]
    have hmod : u % 65536 = u := Nat.mod_eq_of_lt hub
    rw [hmod]
    have hcast : (u : Int) = v % 65536 := by omega
    split <;> omega
  refine ⟨core, ?_⟩
  intro bus s hok hlo hhi
  simp only [read_X, readValue, hok, if_true]
  show axisDecode (byte (s.hw (DATAX0 + 0))) (byte (s.hw (DATAX0 + 1))) = v
  rw [Nat.add_zero, hlo, hhi,
      byte_eq_of_lt (encode_fst_lt v), byte_eq_of_lt (encode_snd_lt v)]
  exact core

/-- Witness for C3 at v = -12345. -/
theorem axis_roundtrip_witness :
    (-32768 ≤ (-12345 : Int)) ∧ ((-12345 : Int) ≤ 32767) ∧
    (axisDecode (encodeLE (-12345)).1 (encodeLE (-12345)).2 = -12345 ∧
     ∀ (bus : Bus) (s : Sys), bus.ok s.n = true →
       s.hw DATAX0 = (encodeLE (-12345)).1 → s.hw (DATAX0 + 1) = (encodeLE (-12345)).2 →
       (read_X bus s).2 = -12345) :=
  ⟨by norm_num, by norm_num, axis_roundtrip (-12345) (by norm_num) (by norm_num)⟩

/-! ## C7: interrupt-source decode -/

/-- C7: the interrupt-source decode is a pure function of the byte read:
for each of the eight bit positions set it emits exactly the corresponding
event and no other (and never an event twice); the all-zero byte decodes
to the empty event list, and 0x84 to exactly data-ready and free-fall. -/
theorem intSource_decode :
    (∀ b, b < 256 → ∀ e ∈ allEvents, (e ∈ intSourceEvents b ↔ b &&& eventMask e ≠ 0)) ∧
    (∀ b, b < 256 → (intSourceEvents b).Nodup) ∧
    intSourceEvents 0x00 = [] ∧
    intSourceEvents 0x84 = [MotionEvent.dataReady, MotionEvent.freeFall] := by
  decide

/-- Witness for C7 at byte 0x84 and the free-fall event. -/
theorem intSource_decode_witness :
    (132 : Nat) < 256 ∧ MotionEvent.freeFall ∈ allEvents ∧
    (MotionEvent.freeFall ∈ intSourceEvents 132 ↔
      (132 : Nat) &&& eventMask MotionEvent.freeFall ≠ 0) :=
  ⟨by decide, by decide, intSource_decode.1 132 (by decide) MotionEvent.freeFall (by decide)⟩

/-! ## Trace-computation lemmas -/

/-- With autosleep on, the (address, value) trace of `adxlInit`. -/
theorem adxlInit_trace_on (bus : Bus) (c : ADXL_InitType) (s : Sys)
    (hA : c.AUTOSLEEP_MODE = AUTOSLEEPMODE_ON) :
    (adxlInit bus (some c) s).log.map (fun w => (w.reg, w.val)) =
      s.log.map (fun w => (w.reg, w.val)) ++
      [(BW_RATE, 0), (POWER_CTL, 0), (DATA_FORMAT, 0), (FIFO_CTL, 0),
       (BW_RATE, byte (c.LP_MODE ||| c.BWRATE)),
       (THRESH_ACT, 16), (THRESH_INACT, 4), (TIME_INACT, 5), (ACT_INACT_CTL, 255),
       (POWER_CTL, byte (c.LINK_MODE ||| c.AUTOSLEEP_MODE ||| c.MEASURE_SET)),
       (DATA_FORMAT, byte (c.FULL_RES ||| c.RANGE)),
       (FIFO_CTL, byte c.FIFO_MODE)] := by
  simp [adxlInit, resetRegisters, configureAutosleep, writeRegister, hA, byte]

/-- With autosleep off, the (address, value) trace of `adxlInit`. -/
theorem adxlInit_trace_off (bus : Bus) (c : ADXL_InitType) (s : Sys)
    (hA : c.AUTOSLEEP_MODE ≠ AUTOSLEEPMODE_ON) :
    (adxlInit bus (some c) s).log.map (fun w => (w.reg, w.val)) =
      s.log.map (fun w => (w.reg, w.val)) ++
      [(BW_RATE, 0), (POWER_CTL, 0), (DATA_FORMAT, 0), (FIFO_CTL, 0),
       (BW_RATE, byte (c.LP_MODE ||| c.BWRATE)),
       (POWER_CTL, byte (c.LINK_MODE ||| c.AUTOSLEEP_MODE ||| c.MEASURE_SET)),
       (DATA_FORMAT, byte (c.FULL_RES ||| c.RANGE)),
       (FIFO_CTL, byte c.FIFO_MODE)] := by
  simp [adxlInit, resetRegisters, writeRegister, hA, byte]

/-- With autosleep off, the registers `adxlInit` writes to. -/
theorem adxlInit_regs_off (bus : Bus) (c : ADXL_InitType) (s : Sys)
    (hA : c.AUTOSLEEP_MODE ≠ AUTOSLEEPMODE_ON) :
    (adxlInit bus (some c) s).log.map Write.reg =
      s.log.map Write.reg ++
      [BW_RATE, POWER_CTL, DATA_FORMAT, FIFO_CTL,
       BW_RATE, POWER_CTL, DATA_FORMAT, FIFO_CTL] := by
  simp [adxlInit, resetRegisters, writeRegister, hA]

/-- The `bw_rate` shadow after `adxlInit`, for any transport. -/
theorem adxlInit_bw_shadow (bus : Bus) (c : ADXL_InitType) (s : Sys) :
    (adxlInit bus (some c) s).drv.bw_rate = byte (c.LP_MODE ||| c.BWRATE) := by
  by_cases hA : c.AUTOSLEEP_MODE = AUTOSLEEPMODE_ON <;>
    simp [adxlInit, resetRegisters, configureAutosleep, writeRegister, hA]

/-- Registers written by `configureTapAndFreefall` with double tap on and
free-fall off. -/
theorem tap_regs_double (bus : Bus) (ic : ADXL_INTType) (s : Sys)
    (hdt : ic.DOUBLE_TAP = DOUBLE_TAP_ON) (hff : ic.FREE_FALL ≠ FREE_FALL_ON) :
    (configureTapAndFreefall bus ic s).log.map Write.reg =
      s.log.map Write.reg ++ [THRESH_TAP, DUR, TAP_AXES, LATENT, WINDOW] := by
  simp [configureTapAndFreefall, writeRegister, hdt, hff]

/-- Registers written by `configureTapAndFreefall` with single tap on,
double tap off and free-fall off. -/
theorem tap_regs_single (bus : Bus) (ic : ADXL_INTType) (s : Sys)
    (hst : ic.SINGLE_TAP = SINGLE_TAP_ON) (hdt : ic.DOUBLE_TAP ≠ DOUBLE_TAP_ON)
    (hff : ic.FREE_FALL ≠ FREE_FALL_ON) :
    (configureTapAndFreefall bus ic s).log.map Write.reg =
      s.log.map Write.reg ++ [THRESH_TAP, DUR, TAP_AXES] := by
  simp [configureTapAndFreefall, writeRegister, hst, hdt, hff]

/-! ## C5: the rate byte written by adxlInit -/

/-- C5: for every valid configuration, the byte `adxlInit` writes to the
rate-control register (the write following the four reset writes) is
exactly `low_power_flag ||| rate_code`, no bit outside the low-power flag
and the 4-bit rate code is set (bits 5-7, mask 224, are clear), and the
`bw_rate` shadow holds the same byte. -/
theorem rate_byte_written (bus : Bus) (c : ADXL_InitType) (s : Sys)
    (hv : ValidInit c) (hlog : s.log = []) :
    ((adxlInit bus (some c) s).log.map fun w => (w.reg, w.val)).get? 4 =
      some (BW_RATE, c.LP_MODE ||| c.BWRATE) ∧
    (c.LP_MODE ||| c.BWRATE) &&& 224 = 0 ∧
    (adxlInit bus (some c) s).drv.bw_rate = c.LP_MODE ||| c.BWRATE := by
  obtain ⟨hlp, hbw, _, hauto, _, _, _, _⟩ := hv
  obtain ⟨hb1, hb2, _⟩ := bw_byte c.LP_MODE c.BWRATE hlp hbw
  refine ⟨?_, hb2, ?_⟩
  · by_cases ha : c.AUTOSLEEP_MODE = AUTOSLEEPMODE_ON
    · rw [adxlInit_trace_on bus c s ha, hlog]
      show some (BW_RATE, byte (c.LP_MODE ||| c.BWRATE)) = some (BW_RATE, c.LP_MODE ||| c.BWRATE)
      rw [hb1]
    · rw [adxlInit_trace_off bus c s ha, hlog]
      show some (BW_RATE, byte (c.LP_MODE ||| c.BWRATE)) = some (BW_RATE, c.LP_MODE ||| c.BWRATE)
      rw [hb1]
  · rw [adxlInit_bw_shadow bus c s]
    exact hb1

/-- Witness for C5 at the usage example's configuration. -/
theorem rate_byte_written_witness :
    ValidInit cfg0 ∧
    (((adxlInit bus0 (some cfg0) sys0).log.map fun w => (w.reg, w.val)).get? 4 =
        some (BW_RATE, cfg0.LP_MODE ||| cfg0.BWRATE) ∧
     (cfg0.LP_MODE ||| cfg0.BWRATE) &&& 224 = 0 ∧
     (adxlInit bus0 (some cfg0) sys0).drv.bw_rate = cfg0.LP_MODE ||| cfg0.BWRATE) :=
  ⟨by decide, rate_byte_written bus0 cfg0 sys0 (by decide) rfl⟩

/-! ## C4: autosleep sub-registers are written before POWER_CTL -/

/-- C4: for a valid configuration with autosleep on, `adxlInit` writes the
four autosleep sub-registers at trace positions strictly before the
autosleep-activating POWER_CTL write; with autosleep off, none of the four
sub-registers is written at all. -/
theorem autosleep_order (bus : Bus) (c : ADXL_InitType) (s : Sys)
    (hv : ValidInit c) (hlog : s.log = []) :
    (c.AUTOSLEEP_MODE = AUTOSLEEPMODE_ON →
      AutosleepOrdered ((adxlInit bus (some c) s).log.map fun w => (w.reg, w.val)) c) ∧
    (c.AUTOSLEEP_MODE = AUTOSLEEPMODE_OFF →
      NoAutosleepWrites ((adxlInit bus (some c) s).log.map Write.reg)) := by
  obtain ⟨hlp, hbw, hlink, hauto, hmeas, hfres, hrange, hfifo⟩ := hv
  constructor
  · intro ha
    simp only [AutosleepOrdered]
    rw [adxlInit_trace_on bus c s ha, hlog]
    rcases hlink with hL | hL <;> rcases hmeas with hM | hM <;> rw [hL, hM, ha] <;>
      exact ⟨9, rfl, by decide, ⟨5, by omega, rfl⟩, ⟨6, by omega, rfl⟩,
             ⟨7, by omega, rfl⟩, ⟨8, by omega, rfl⟩⟩
  · intro ha
    have ha' : c.AUTOSLEEP_MODE ≠ AUTOSLEEPMODE_ON := by
      rw [ha]
      decide
    rw [adxlInit_regs_off bus c s ha', hlog]
    decide

/-- Witness for C4 at the autosleep-enabled configuration. -/
theorem autosleep_order_witness :
    ValidInit cfgAuto ∧ cfgAuto.AUTOSLEEP_MODE = AUTOSLEEPMODE_ON ∧
    AutosleepOrdered
      ((adxlInit bus0 (some cfgAuto) sys0).log.map fun w => (w.reg, w.val)) cfgAuto :=
  ⟨by decide, rfl,
   (autosleep_order bus0 cfgAuto sys0 (by decide) rfl).1 rfl⟩

/-! ## C6: double-tap writes latency and window, single-tap does not -/

/-- C6: with only double tap requested, `configureTapAndFreefall` writes
both the latency and window registers on top of the three tap registers;
with only single tap requested it writes the three tap registers but
neither latency nor window. -/
theorem tap_trace (bus : Bus) (ic : ADXL_INTType) (s : Sys) (hlog : s.log = []) :
    (OnlyDoubleTap ic →
      TapTraceDouble ((configureTapAndFreefall bus ic s).log.map Write.reg)) ∧
    (OnlySingleTap ic →
      TapTraceSingle ((configureTapAndFreefall bus ic s).log.map Write.reg)) := by
  constructor
  · intro h
    obtain ⟨h1, h2, h3, h4, h5, h6, h7, h8⟩ := h
    rw [tap_regs_double bus ic s h3 (by rw [h6]; decide), hlog]
    decide
  · intro h
    obtain ⟨h1, h2, h3, h4, h5, h6, h7, h8⟩ := h
    rw [tap_regs_single bus ic s h2 (by rw [h3]; decide) (by rw [h6]; decide), hlog]
    decide

/-- Witness for C6 at the two concrete interrupt configurations. -/
theorem tap_trace_witness :
    OnlyDoubleTap icDouble ∧
    TapTraceDouble ((configureTapAndFreefall bus0 icDouble sys0).log.map Write.reg) ∧
    OnlySingleTap icSingle ∧
    TapTraceSingle ((configureTapAndFreefall bus0 icSingle sys0).log.map Write.reg) :=
  ⟨by decide,
   (tap_trace bus0 icDouble sys0 rfl).1 (by decide),
   by decide,
   (tap_trace bus0 icSingle sys0 rfl).2 (by decide)⟩

/-! ## C8: interrupt mapping -/

/-- C8 (counterexample): `INT_Map` with the invalid pin 3 issues no write
and its only failure signal is the printed error line — the C function
returns `void`, so no `ConfigurationError` value is returned. -/
theorem INT_Map_invalid_pin_cex :
    (INT_Map bus0 128 3 0 sys0).log = [] ∧
    (INT_Map bus0 128 3 0 sys0).console = [Msg.readOk INT_MAP, Msg.invalidPin] ∧
    (INT_Map bus0 128 3 0 sys0).drv = sys0.drv := by
  decide

/-- C8 (amended): for a byte-sized mask and map register, pin 1 writes
back the read byte with the mask bits cleared and every other bit
unchanged, pin 2 with the mask bits set and every other bit unchanged;
any other pin issues no write and only prints an error line (no error
value is returned). -/
theorem INT_Map_behaviour (bus : Bus) (mask pin junk : Nat) (s : Sys)
    (hm : mask < 256) (hr : s.hw INT_MAP < 256) (hok : bus.ok s.n = true)
    (hlog : s.log = []) :
    INT_MapBehaviour bus mask pin junk s := by
  have him : byte (s.hw INT_MAP) = s.hw INT_MAP := byte_eq_of_lt hr
  have hbm : byte mask = mask := byte_eq_of_lt hm
  refine ⟨?_, ?_, ?_⟩
  · intro hp
    subst hp
    constructor
    · have hand : s.hw INT_MAP &&& (255 ^^^ mask) < 256 :=
        lt_of_le_of_lt Nat.and_le_left hr
      simp [INT_Map, readRegister, writeRegister, hok, hbm, him, hlog,
            byte_eq_of_lt hand]
    · intro i hi
      rw [Nat.testBit_and, Nat.testBit_xor,
          show (255 : Nat) = 2 ^ 8 - 1 by norm_num,
          Nat.testBit_two_pow_sub_one]
      simp [hi]
  · intro hp
    subst hp
    constructor
    · have hor : s.hw INT_MAP ||| mask < 256 := by
        have h8 : s.hw INT_MAP ||| mask < 2 ^ 8 :=
          @Nat.or_lt_two_pow _ _ 8 (by simpa using hr) (by simpa using hm)
        simpa using h8
      simp [INT_Map, readRegister, writeRegister, hok, hbm, him, hlog,
            byte_eq_of_lt hor]
    · intro i hi
      rw [Nat.testBit_lor]
  · intro hp1 hp2
    constructor
    · simp [INT_Map, readRegister, writeRegister, hok, hlog, hp1, hp2]
    · simp [INT_Map, readRegister, writeRegister, hok, hp1, hp2, List.append_assoc]

/-- Witness for the amended C8 theorem at pin 1 on a fresh state. -/
theorem INT_Map_behaviour_witness :
    (128 : Nat) < 256 ∧ sys0.hw INT_MAP < 256 ∧ bus0.ok sys0.n = true ∧
    sys0.log = [] ∧ INT_MapBehaviour bus0 128 1 0 sys0 :=
  ⟨by decide, by decide, rfl, rfl,
   INT_Map_behaviour bus0 128 1 0 sys0 (by decide) (by decide) rfl rfl⟩

end ADXL345
